import Mathlib

/-!
# lintestor, `debian/gcc/main.c`

A shallow embedding of the toolchain smoke test `main.c`.

The program writes four `printf` statements to standard output and returns 0.
The two helpers `add` and `subtract` are declared in `functions.h` and defined
in a companion translation unit; `main` is embedded with both helpers as
parameters, so that every statement about `main` holds for whatever the linked
helpers return.

* standard output is a character stream, `List Char`;
* a C `int` is an `Int` (`main` does no arithmetic of its own);
* `printf` is an interpreter of the format string for plain characters and the
  `%d` conversion, the only conversion the program uses;
* calls to the helpers are recorded in the state, in the order they happen.
-/

namespace Lintestor

/-! ## Data model -/

/-- The two functions declared in `functions.h`. -/
inductive Helper where
  | add
  | subtract
  deriving DecidableEq

/-- One call of a helper, with the two actual arguments. -/
structure Call where
  fn : Helper
  x : Int
  y : Int
  deriving DecidableEq

/-- The observable state of a run: what was written to standard output so far
and which helper calls were made so far (oldest first). -/
structure World where
  stdout : List Char
  calls : List Call
  deriving DecidableEq

/-- The state at program start. -/
def World.init : World := ⟨[], []⟩

/-! ## `printf` -/

/-- The text `%d` produces for an `int`: the decimal digits without leading
zeros, preceded by `-` when the value is negative. -/
def fmtInt : Int → List Char
  | Int.ofNat n => Nat.toDigits 10 n
  | Int.negSucc n => '-' :: Nat.toDigits 10 (n + 1)

/-- Expansion of a format string against its argument list. `%d` consumes the
next argument; every other character is copied. (A `%d` with no argument left
is undefined in C and does not occur in this program; it is copied.) -/
def formatChars : List Char → List Int → List Char
  | [], _ => []
  | '%' :: 'd' :: rest, a :: args => fmtInt a ++ formatChars rest args
  | c :: rest, args => c :: formatChars rest args

/-- The statement `printf(fmt, args...);` whose return value is discarded:
the expansion is appended to standard output. -/
def printf (fmt : String) (args : List Int) (w : World) : World :=
  { w with stdout := w.stdout ++ formatChars fmt.toList args }

/-- Evaluation of the call expression `f(x, y)` for a helper `f`: the call is
recorded and the helper's result is the value. -/
def callHelper (fn : Helper) (f : Int → Int → Int) (x y : Int) (w : World) :
    Int × World :=
  (f x y, { w with calls := w.calls ++ [⟨fn, x, y⟩] })

/-! ## `main` -/

/-- The function `main` of `main.c`, statement by statement. The result is the
final state and the returned status. -/
def main (add subtract : Int → Int → Int) : World × Int :=
  let w := World.init
  let w := printf "This program tests the availability of make and gcc.\n" [] w
  let w := printf "If you can see this message, both make and gcc are working!\n\n" [] w
  let a : Int := 10
  let b : Int := 5
  let (r, w) := callHelper Helper.add add a b w
  let w := printf "Testing add function: %d + %d = %d\n" [a, b, r] w
  let (r, w) := callHelper Helper.subtract subtract a b w
  let w := printf "Testing subtract function: %d - %d = %d\n" [a, b, r] w
  (w, 0)

/-! ## The helpers -/

/-- Modelled from the spec: the body of `add` is in the companion translation
unit of `functions.h`, which is not part of the sources at hand. Section 4.1:
"`add(x, y)`: returns the sum of two integers; no error conditions; no side
effects." -/
def add (x y : Int) : Int := x + y

/-- Modelled from the spec: the body of `subtract` is in the companion
translation unit of `functions.h`, which is not part of the sources at hand.
Section 4.1: "`subtract(x, y)`: returns the difference of two integers; no
error conditions; no side effects." -/
def subtract (x y : Int) : Int := x - y

/-! ## Lines of a character stream -/

/-- The lines of a text: each newline ends a line (possibly an empty one);
characters after the last newline form a last, unterminated line. -/
def splitLines : List Char → List (List Char)
  | [] => []
  | c :: cs =>
    if c = '\n' then [] :: splitLines cs
    else
      match splitLines cs with
      | [] => [[c]]
      | l :: ls => (c :: l) :: ls

/-- The text made of the given lines, each followed by a newline. -/
def joinLines : List (List Char) → List Char
  | [] => []
  | l :: ls => l ++ '\n' :: joinLines ls

/-- The first banner line. -/
def banner1 : List Char :=
  "This program tests the availability of make and gcc.".toList

/-- The second banner line. -/
def banner2 : List Char :=
  "If you can see this message, both make and gcc are working!".toList

/-- The add result line for a given result value. -/
def addLine (r : Int) : List Char :=
  "Testing add function: 10 + 5 = ".toList ++ fmtInt r

/-- The subtract result line for a given result value. -/
def subtractLine (r : Int) : List Char :=
  "Testing subtract function: 10 - 5 = ".toList ++ fmtInt r

/-- The lines `main` writes, for given helper results. -/
def outputLines (ra rs : Int) : List (List Char) :=
  [banner1, banner2, [], addLine ra, subtractLine rs]

/-! ## Facts about `%d` -/

theorem digitChar_fin_ne_newline : ∀ d : Fin 10, Nat.digitChar d.val ≠ '\n' := by
  decide

theorem digitChar_ne_newline (n : Nat) : Nat.digitChar (n % 10) ≠ '\n' :=
  digitChar_fin_ne_newline ⟨n % 10, Nat.mod_lt n (by decide)⟩

theorem toDigitsCore_no_newline (fuel : Nat) :
    ∀ (n : Nat) (ds : List Char), (∀ c ∈ ds, c ≠ '\n') →
      ∀ c ∈ Nat.toDigitsCore 10 fuel n ds, c ≠ '\n' := by
  induction fuel with
  | zero => intro n ds hds; simpa [Nat.toDigitsCore] using hds
  | succ fuel ih =>
    intro n ds hds
    have hcons : ∀ c ∈ Nat.digitChar (n % 10) :: ds, c ≠ '\n' := by
      intro c hc
      rcases List.mem_cons.mp hc with rfl | hc
      · exact digitChar_ne_newline _
      · exact hds c hc
    simp only [Nat.toDigitsCore]
    split_ifs
    · exact hcons
    · exact ih _ _ hcons

theorem fmtInt_no_newline (i : Int) : ∀ c ∈ fmtInt i, c ≠ '\n' := by
  cases i with
  | ofNat n =>
    exact toDigitsCore_no_newline _ _ _ (by simp)
  | negSucc n =>
    intro c hc
    rcases List.mem_cons.mp hc with rfl | hc
    · decide
    · exact toDigitsCore_no_newline _ _ _ (by simp) c hc

/-! ## Facts about lines -/

theorem splitLines_append_newline (l rest : List Char) (hl : ∀ c ∈ l, c ≠ '\n') :
    splitLines (l ++ '\n' :: rest) = l :: splitLines rest := by
  induction l with
  | nil => simp [splitLines]
  | cons c l ih =>
    have hc : c ≠ '\n' := hl c (List.mem_cons_self _ _)
    have hl2 : ∀ d ∈ l, d ≠ '\n' := fun d hd => hl d (List.mem_cons_of_mem _ hd)
    simp [splitLines, hc, ih hl2]

theorem splitLines_joinLines (ls : List (List Char))
    (h : ∀ l ∈ ls, ∀ c ∈ l, c ≠ '\n') : splitLines (joinLines ls) = ls := by
  induction ls with
  | nil => rfl
  | cons l ls ih =>
    have h1 := h l (List.mem_cons_self _ _)
    have h2 : ∀ m ∈ ls, ∀ c ∈ m, c ≠ '\n' := fun m hm => h m (List.mem_cons_of_mem _ hm)
    simp only [joinLines]
    rw [splitLines_append_newline l _ h1, ih h2]

theorem count_newline_joinLines (ls : List (List Char))
    (h : ∀ l ∈ ls, ∀ c ∈ l, c ≠ '\n') : (joinLines ls).count '\n' = ls.length := by
  induction ls with
  | nil => rfl
  | cons l ls ih =>
    have h1 := h l (List.mem_cons_self _ _)
    have h2 : ∀ m ∈ ls, ∀ c ∈ m, c ≠ '\n' := fun m hm => h m (List.mem_cons_of_mem _ hm)
    have h0 : l.count '\n' = 0 := List.count_eq_zero.mpr (fun hmem => h1 _ hmem rfl)
    simp [joinLines, List.count_append, h0, ih h2]

theorem banner1_no_newline : ∀ c ∈ banner1, c ≠ '\n' := by decide

theorem banner2_no_newline : ∀ c ∈ banner2, c ≠ '\n' := by decide

theorem addLine_no_newline (r : Int) : ∀ c ∈ addLine r, c ≠ '\n' := by
  intro c hc
  have key : ∀ d ∈ "Testing add function: 10 + 5 = ".toList, d ≠ '\n' := by decide
  rcases List.mem_append.mp hc with h | h
  · exact key c h
  · exact fmtInt_no_newline r c h

theorem subtractLine_no_newline (r : Int) : ∀ c ∈ subtractLine r, c ≠ '\n' := by
  intro c hc
  have key : ∀ d ∈ "Testing subtract function: 10 - 5 = ".toList, d ≠ '\n' := by decide
  rcases List.mem_append.mp hc with h | h
  · exact key c h
  · exact fmtInt_no_newline r c h

theorem outputLines_no_newline (ra rs : Int) :
    ∀ l ∈ outputLines ra rs, ∀ c ∈ l, c ≠ '\n' := by
  intro l hl
  simp only [outputLines, List.mem_cons, List.mem_singleton, List.not_mem_nil, or_false] at hl
  rcases hl with rfl | rfl | rfl | rfl | rfl
  · exact banner1_no_newline
  · exact banner2_no_newline
  · simp
  · exact addLine_no_newline ra
  · exact subtractLine_no_newline rs

/-! ## The run of `main` -/

theorem formatChars_banner1 :
    formatChars "This program tests the availability of make and gcc.\n".toList [] =
      banner1 ++ ['\n'] := by
  rfl

theorem formatChars_banner2 :
    formatChars "If you can see this message, both make and gcc are working!\n\n".toList [] =
      banner2 ++ ['\n', '\n'] := by
  rfl

theorem formatChars_add (r : Int) :
    formatChars "Testing add function: %d + %d = %d\n".toList [10, 5, r] =
      addLine r ++ ['\n'] := by
  rfl

theorem formatChars_subtract (r : Int) :
    formatChars "Testing subtract function: %d - %d = %d\n".toList [10, 5, r] =
      subtractLine r ++ ['\n'] := by
  rfl

theorem main_stdout_raw (add subtract : Int → Int → Int) :
    (main add subtract).1.stdout =
      (((([] ++ (banner1 ++ ['\n'])) ++ (banner2 ++ ['\n', '\n'])) ++
        (addLine (add 10 5) ++ ['\n'])) ++ (subtractLine (subtract 10 5) ++ ['\n'])) := by
  rw [← formatChars_banner1, ← formatChars_banner2, ← formatChars_add, ← formatChars_subtract]
  rfl

theorem main_stdout (add subtract : Int → Int → Int) :
    (main add subtract).1.stdout = joinLines (outputLines (add 10 5) (subtract 10 5)) := by
  rw [main_stdout_raw]
  simp only [joinLines, outputLines, List.nil_append, List.append_assoc, List.cons_append]

theorem main_calls (add subtract : Int → Int → Int) :
    (main add subtract).1.calls = [⟨Helper.add, 10, 5⟩, ⟨Helper.subtract, 10, 5⟩] := by
  rfl

/-! ## The claims -/

/-- C1, as stated, fails: with helpers that return the sum and the difference,
the text written to standard output does not consist of exactly four lines. -/
theorem C1_not_four_lines :
    ¬ (splitLines (main (fun x y => x + y) (fun x y => x - y)).1.stdout).length = 4 := by
  rw [main_stdout, splitLines_joinLines _ (outputLines_no_newline _ _)]
  decide

/-- C1, amended: for every pair of helpers the text written to standard output
consists of exactly five lines, exactly four of which are non-empty. -/
theorem C1_five_lines_four_nonempty (add subtract : Int → Int → Int) :
    (splitLines (main add subtract).1.stdout).length = 5 ∧
      ((splitLines (main add subtract).1.stdout).filter (fun l => !l.isEmpty)).length = 4 := by
  rw [main_stdout, splitLines_joinLines _ (outputLines_no_newline _ _)]
  exact ⟨rfl, rfl⟩

/-- C2: for every pair of helpers, whatever they return, `main` returns
status 0. -/
theorem C2_main_returns_zero (add subtract : Int → Int → Int) :
    (main add subtract).2 = 0 := by
  rfl

/-- C3: when `add` returns the sum and `subtract` the difference of their
arguments, the two result lines (the lines after the blank line, which are the
last two lines of the output) are exactly `Testing add function: 10 + 5 = 15`
and `Testing subtract function: 10 - 5 = 5`. -/
theorem C3_result_lines (add subtract : Int → Int → Int)
    (hadd : ∀ x y, add x y = x + y) (hsub : ∀ x y, subtract x y = x - y) :
    (splitLines (main add subtract).1.stdout).drop 3 =
      ["Testing add function: 10 + 5 = 15".toList,
       "Testing subtract function: 10 - 5 = 5".toList] := by
  rw [main_stdout, splitLines_joinLines _ (outputLines_no_newline _ _), hadd, hsub]
  decide

/-- Witness for C3 at the helpers of section 4.1. -/
theorem C3_result_lines_witness :
    (splitLines (main add subtract).1.stdout).drop 3 =
      ["Testing add function: 10 + 5 = 15".toList,
       "Testing subtract function: 10 - 5 = 5".toList] :=
  C3_result_lines add subtract (fun _ _ => rfl) (fun _ _ => rfl)

/-- C4: for all integers `x` and `y`, `add x y` is `x + y`. -/
theorem C4_add_is_sum (x y : Int) : add x y = x + y := by
  rfl

/-- C5: for all integers `x` and `y`, `subtract x y` is `x - y`, the first
argument being the minuend. -/
theorem C5_subtract_is_difference (x y : Int) : subtract x y = x - y := by
  rfl

/-- C6: the lines of the output come in a fixed order, for every pair of
helpers: the first banner, the second banner, (a blank line,) the add result
line, the subtract result line. -/
theorem C6_output_order (add subtract : Int → Int → Int) :
    splitLines (main add subtract).1.stdout =
      ["This program tests the availability of make and gcc.".toList,
       "If you can see this message, both make and gcc are working!".toList,
       [],
       "Testing add function: 10 + 5 = ".toList ++ fmtInt (add 10 5),
       "Testing subtract function: 10 - 5 = ".toList ++ fmtInt (subtract 10 5)] := by
  rw [main_stdout, splitLines_joinLines _ (outputLines_no_newline _ _)]
  rfl

/-- C7: `main` is parametric in the helpers and never checks their results.
For any `add` and `subtract` the output is the two banner texts followed by
`Testing add function: 10 + 5 = ` with the `%d` rendering of `add 10 5` and
`Testing subtract function: 10 - 5 = ` with the `%d` rendering of
`subtract 10 5`; the calls made are exactly `add(10, 5)` then
`subtract(10, 5)`, one each; and the status is 0. -/
theorem C7_main_parametric (add subtract : Int → Int → Int) :
    (main add subtract).1.stdout =
        "This program tests the availability of make and gcc.\n".toList ++
        "If you can see this message, both make and gcc are working!\n\n".toList ++
        ("Testing add function: 10 + 5 = ".toList ++ fmtInt (add 10 5) ++ "\n".toList) ++
        ("Testing subtract function: 10 - 5 = ".toList ++ fmtInt (subtract 10 5) ++
          "\n".toList) ∧
      (main add subtract).1.calls = [⟨Helper.add, 10, 5⟩, ⟨Helper.subtract, 10, 5⟩] ∧
      (main add subtract).2 = 0 := by
  refine ⟨?_, rfl, rfl⟩
  rw [main_stdout_raw]
  rfl

/-- C8: the second banner text is followed by two newline characters; the
output has exactly one empty line, and it sits between the second banner line
and the add result line; the output holds exactly five newline characters and
its last character is a newline. -/
theorem C8_blank_line_and_newlines (add subtract : Int → Int → Int) :
    (main add subtract).1.stdout =
        banner1 ++ '\n' :: (banner2 ++ '\n' :: '\n' ::
          (addLine (add 10 5) ++ '\n' :: (subtractLine (subtract 10 5) ++ ['\n']))) ∧
      (splitLines (main add subtract).1.stdout).count [] = 1 ∧
      (splitLines (main add subtract).1.stdout).get? 1 = some banner2 ∧
      (splitLines (main add subtract).1.stdout).get? 2 = some [] ∧
      (splitLines (main add subtract).1.stdout).get? 3 = some (addLine (add 10 5)) ∧
      (main add subtract).1.stdout.count '\n' = 5 ∧
      (main add subtract).1.stdout.getLast? = some '\n' := by
  refine ⟨?_, ?_, ?_, ?_, ?_, ?_, ?_⟩
  · rw [main_stdout]; rfl
  · rw [main_stdout, splitLines_joinLines _ (outputLines_no_newline _ _)]
    rfl
  · rw [main_stdout, splitLines_joinLines _ (outputLines_no_newline _ _)]
    rfl
  · rw [main_stdout, splitLines_joinLines _ (outputLines_no_newline _ _)]
    rfl
  · rw [main_stdout, splitLines_joinLines _ (outputLines_no_newline _ _)]
    rfl
  · rw [main_stdout, count_newline_joinLines _ (outputLines_no_newline _ _)]
    rfl
  · rw [main_stdout_raw, ← List.append_assoc]
    exact List.getLast?_concat _

end Lintestor
